import Mathlib

/-!
Shallow embedding of `app.py` (CareerTalkBot): a conversational agent whose
`Me.chat` method runs a tool-calling loop against a primary model, then gates
the candidate reply through an evaluator model and a one-shot regeneration
(`Me.rerun`).  Python values flowing through tool calls are modelled by
`JValue`; the outbound model calls are modelled by caller-supplied oracles and
the engine is instrumented with an event trace so that theorems can speak
about which collaborator was invoked with which arguments.
-/

/-- Python/JSON values as they flow through `json.loads`, the tool functions
and `json.dumps` in `app.py`. -/
inductive JValue where
  | null
  | bool (b : Bool)
  | num (n : Int)
  | str (s : String)
  | arr (xs : List JValue)
  | obj (fields : List (String × JValue))

/-- Escape of one character inside a Python `repr` of a string (single-quoted:
backslash, quote and the common control characters; other characters are kept
as written, which matches CPython for the printable inputs exercised here). -/
def pyReprChar (c : Char) : String :=
  if c = '\\' then "\\\\"
  else if c = '\'' then "\\\'"
  else if c = '\n' then "\\n"
  else if c = '\t' then "\\t"
  else if c = '\x0d' then "\\r"
  else String.singleton c

/-- Python `repr` of a string: single-quoted with escapes.  (CPython switches
to double quotes when the text holds a quote but no double quote; that
cosmetic case is not modelled — nothing in the claims depends on it.) -/
def pyReprStr (s : String) : String :=
  "\'" ++ String.join (s.data.map pyReprChar) ++ "\'"

mutual

/-- Python `repr` of a `JValue` (used by `str()` on containers inside
f-strings). -/
def pyRepr : JValue → String
  | JValue.null => "None"
  | JValue.bool b => if b then "True" else "False"
  | JValue.num n => toString n
  | JValue.str s => pyReprStr s
  | JValue.arr xs => "[" ++ pyReprList xs ++ "]"
  | JValue.obj fs => "\x7b" ++ pyReprFields fs ++ "\x7d"

/-- Comma-joined reprs of a list's elements. -/
def pyReprList : List JValue → String
  | [] => ""
  | [x] => pyRepr x
  | x :: y :: rest => pyRepr x ++ ", " ++ pyReprList (y :: rest)

/-- Comma-joined reprs of a dict's items. -/
def pyReprFields : List (String × JValue) → String
  | [] => ""
  | [(k, v)] => pyReprStr k ++ ": " ++ pyRepr v
  | (k, v) :: f :: rest => pyReprStr k ++ ": " ++ pyRepr v ++ ", " ++ pyReprFields (f :: rest)

end

/-- Python `str()` of a `JValue`, as interpolated by the f-strings in the tool
functions (`str` of a Python `str` is the text itself; containers fall back to
`repr`). -/
def pyStr : JValue → String
  | JValue.str s => s
  | JValue.null => "None"
  | JValue.bool b => if b then "True" else "False"
  | JValue.num n => toString n
  | JValue.arr xs => pyRepr (JValue.arr xs)
  | JValue.obj fs => pyRepr (JValue.obj fs)

/-- Escape of one character inside `json.dumps` of a string (default
`ensure_ascii` nuances beyond the characters appearing here are not needed). -/
def jsonEscapeChar (c : Char) : String :=
  if c = '\\' then "\\\\"
  else if c = '"' then "\\\""
  else if c = '\n' then "\\n"
  else if c = '\t' then "\\t"
  else if c = '\x0d' then "\\r"
  else String.singleton c

mutual

/-- Python `json.dumps` with its default separators, as used on each tool's
result in `Me.handle_tool_call` (line 126 of `app.py`). -/
def json_dumps : JValue → String
  | JValue.null => "null"
  | JValue.bool b => if b then "true" else "false"
  | JValue.num n => toString n
  | JValue.str s => "\"" ++ String.join (s.data.map jsonEscapeChar) ++ "\""
  | JValue.arr xs => "[" ++ jsonDumpsList xs ++ "]"
  | JValue.obj fs => "\x7b" ++ jsonDumpsFields fs ++ "\x7d"

/-- Comma-joined dumps of a JSON array's elements. -/
def jsonDumpsList : List JValue → String
  | [] => ""
  | [x] => json_dumps x
  | x :: y :: rest => json_dumps x ++ ", " ++ jsonDumpsList (y :: rest)

/-- Comma-joined dumps of a JSON object's members. -/
def jsonDumpsFields : List (String × JValue) → String
  | [] => ""
  | [(k, v)] => "\"" ++ String.join (k.data.map jsonEscapeChar) ++ "\": " ++ json_dumps v
  | (k, v) :: f :: rest =>
      "\"" ++ String.join (k.data.map jsonEscapeChar) ++ "\": " ++ json_dumps v ++ ", " ++
        jsonDumpsFields (f :: rest)

end

/-- Insertion into a Python dict modelled as an association list: an existing
key keeps its position and takes the new value, a new key goes to the end. -/
def dictInsert : List (String × JValue) → String → JValue → List (String × JValue)
  | [], k, v => [(k, v)]
  | (k0, v0) :: rest, k, v =>
      if k0 == k then (k0, v) :: rest else (k0, v0) :: dictInsert rest k v

/-- Python dict built from key/value pairs in order (later duplicates
overwrite earlier values, as `json.loads` does for repeated members). -/
def mkDict (kvs : List (String × JValue)) : List (String × JValue) :=
  kvs.foldl (fun d kv => dictInsert d kv.fst kv.snd) []

/-- Serialized argument payload of a tool call, as handed to `json.loads` on
line 120 of `app.py`.  The JSON text itself is abstracted to its parse
outcome: `valid kvs` is a payload that parses to the JSON object with members
`kvs`; `invalid raw` is a payload on which `json.loads` raises
`JSONDecodeError`. -/
inductive ArgPayload where
  | valid (kvs : List (String × JValue))
  | invalid (raw : String)

/-- Exceptions that the dispatch path of `app.py` can raise. -/
inductive PyError where
  | jsonDecodeError (raw : String)
  | typeErrorNotCallable (name : String)
  | typeErrorBadKwargs (fname : String)
  | unmodeledCall (name : String)

/-- Model of `json.loads` on a tool call's argument payload: a parse failure
raises, a success yields the parsed object as a Python dict. -/
def json_loads : ArgPayload → Except PyError (List (String × JValue))
  | ArgPayload.valid kvs => Except.ok (mkDict kvs)
  | ArgPayload.invalid raw => Except.error (PyError.jsonDecodeError raw)

/-- Function `push` of `app.py` (lines 24-32): posts one Pushover notification
carrying its argument as the message and returns Python `None`.  The outbound
HTTP call is modelled as the emitted notification value. -/
def push (text : JValue) : List JValue × JValue :=
  ([text], JValue.null)

/-- Tool `record_user_details` of `app.py` (lines 38-40): pushes one
notification interpolating name, email and notes, and returns the fixed
acknowledgement object. -/
def record_user_details (email name notes : JValue) : List JValue × JValue :=
  let (ns, _) := push (JValue.str
    ("Recording " ++ pyStr name ++ " with email " ++ pyStr email ++ " and notes " ++ pyStr notes))
  (ns, JValue.obj [("recorded", JValue.str "ok")])

/-- Tool `record_unknown_question` of `app.py` (lines 45-47): pushes one
notification interpolating the question and returns the fixed acknowledgement
object. -/
def record_unknown_question (question : JValue) : List JValue × JValue :=
  let (ns, _) := push (JValue.str ("Recording " ++ pyStr question))
  (ns, JValue.obj [("recorded", JValue.str "ok")])

/-- Call of `push(**kwargs)`: the signature `push(text)` requires exactly the
keyword `text`; any other keyword set raises `TypeError`. -/
def callPush (d : List (String × JValue)) : Except PyError (List JValue × JValue) :=
  if d.all (fun kv => kv.fst == "text") then
    match d.lookup "text" with
    | some t => Except.ok (push t)
    | none => Except.error (PyError.typeErrorBadKwargs "push")
  else Except.error (PyError.typeErrorBadKwargs "push")

/-- Call of `record_user_details(**kwargs)`: `email` is required, `name` and
`notes` default to the literals of line 38 of `app.py`; an unexpected keyword
raises `TypeError`. -/
def callRecordUserDetails (d : List (String × JValue)) :
    Except PyError (List JValue × JValue) :=
  if d.all (fun kv => kv.fst == "email" || kv.fst == "name" || kv.fst == "notes") then
    match d.lookup "email" with
    | some e =>
        Except.ok (record_user_details e
          ((d.lookup "name").getD (JValue.str "Name not provided"))
          ((d.lookup "notes").getD (JValue.str "not provided")))
    | none => Except.error (PyError.typeErrorBadKwargs "record_user_details")
  else Except.error (PyError.typeErrorBadKwargs "record_user_details")

/-- Call of `record_unknown_question(**kwargs)`: exactly the keyword
`question` is accepted. -/
def callRecordUnknownQuestion (d : List (String × JValue)) :
    Except PyError (List JValue × JValue) :=
  if d.all (fun kv => kv.fst == "question") then
    match d.lookup "question" with
    | some q => Except.ok (record_unknown_question q)
    | none => Except.error (PyError.typeErrorBadKwargs "record_unknown_question")
  else Except.error (PyError.typeErrorBadKwargs "record_unknown_question")

/-- One module-level binding of `app.py`, classified by how calling it with
`**kwargs` behaves.  The three functions reachable through tool dispatch are
modelled exactly; the remaining callables (imported constructors and the
classes `Evaluation` and `Me`) are beyond the claims and calling one is left
as an unmodelled error; modules, dicts, lists and other data raise
`TypeError: object is not callable`. -/
inductive PyGlobal where
  | pushFn
  | recordUserDetailsFn
  | recordUnknownQuestionFn
  | otherCallable (tag : String)
  | nonCallable (tag : String)

/-- Invocation `g(**kwargs)` of a module-level binding. -/
def invokeGlobal : PyGlobal → List (String × JValue) → Except PyError (List JValue × JValue)
  | PyGlobal.pushFn, d => callPush d
  | PyGlobal.recordUserDetailsFn, d => callRecordUserDetails d
  | PyGlobal.recordUnknownQuestionFn, d => callRecordUnknownQuestion d
  | PyGlobal.otherCallable tag, _ => Except.error (PyError.unmodeledCall tag)
  | PyGlobal.nonCallable tag, _ => Except.error (PyError.typeErrorNotCallable tag)

/-- Module-level global namespace of `app.py`, as `globals()` sees it inside
`Me.handle_tool_call`: the imports of lines 1-8, the class `Evaluation`, the
three functions, the two schema dicts, the `tools` list and the class `Me`.
Every one of these values is truthy in Python, so the conditional
`tool(**arguments) if tool else {}` distinguishes exactly present from absent
names. -/
def moduleGlobals : List (String × PyGlobal) :=
  [("load_dotenv", PyGlobal.otherCallable "load_dotenv"),
   ("OpenAI", PyGlobal.otherCallable "OpenAI"),
   ("json", PyGlobal.nonCallable "json"),
   ("os", PyGlobal.nonCallable "os"),
   ("requests", PyGlobal.nonCallable "requests"),
   ("PdfReader", PyGlobal.otherCallable "PdfReader"),
   ("gr", PyGlobal.nonCallable "gr"),
   ("BaseModel", PyGlobal.otherCallable "BaseModel"),
   ("Evaluation", PyGlobal.otherCallable "Evaluation"),
   ("push", PyGlobal.pushFn),
   ("record_user_details", PyGlobal.recordUserDetailsFn),
   ("record_unknown_question", PyGlobal.recordUnknownQuestionFn),
   ("record_user_details_json", PyGlobal.nonCallable "record_user_details_json"),
   ("record_unknown_question_json", PyGlobal.nonCallable "record_unknown_question_json"),
   ("tools", PyGlobal.nonCallable "tools"),
   ("Me", PyGlobal.otherCallable "Me")]

/-- Function part of a model-issued tool call: `tool_call.function` with its
`name` and serialized `arguments`. -/
structure ToolFunction where
  name : String
  arguments : ArgPayload

/-- Model-issued tool call: `tool_call.id` plus its function part. -/
structure ToolCall where
  id : String
  function : ToolFunction

/-- Tool-role message appended for one handled call:
`{"role": "tool", "content": json.dumps(result), "tool_call_id": tool_call.id}`. -/
structure ToolResult where
  content : String
  tool_call_id : String

/-- One iteration of the `for tool_call in tool_calls` body of
`Me.handle_tool_call` (lines 118-126 of `app.py`): parse the arguments with
`json.loads` (a failure raises), resolve the tool name against the module
globals, invoke the resolved object — or take the empty dict when the name is
absent — and build the tool-role entry from the dumped result and the call
id.  On success the first component carries the notifications the invocation
pushed. -/
def dispatchOne (tc : ToolCall) : Except PyError (List JValue × ToolResult) :=
  match json_loads tc.function.arguments with
  | Except.error e => Except.error e
  | Except.ok args =>
      match moduleGlobals.lookup tc.function.name with
      | none => Except.ok ([], ⟨json_dumps (JValue.obj []), tc.id⟩)
      | some g =>
          match invokeGlobal g args with
          | Except.error e => Except.error e
          | Except.ok (ns0, result) => Except.ok (ns0, ⟨json_dumps result, tc.id⟩)

/-- Body of `Me.handle_tool_call` (lines 116-127 of `app.py`; `self` is
unused by the source body): run `dispatchOne` over the calls in order,
collecting one result per call; a raise anywhere propagates out, so no result
list is returned for the batch.  The first component accumulates the
notifications pushed by the calls that ran before any raise. -/
def handle_tool_call : List ToolCall → List JValue × Except PyError (List ToolResult)
  | [] => ([], Except.ok [])
  | tc :: rest =>
      match dispatchOne tc with
      | Except.error e => ([], Except.error e)
      | Except.ok (ns0, tr) =>
          let (ns, res) := handle_tool_call rest
          (ns0 ++ ns, res.map (fun rs => tr :: rs))

/-- Assistant message of one model response (`response.choices[0].message`):
its text content (Python `None` or a string) and the tool calls it requests
(empty when none). -/
structure ModelMessage where
  content : Option String
  tool_calls : List ToolCall

/-- Value of the local variable `message` inside `Me.chat`: it starts as the
new user message string (the `message` parameter) and is rebound on line 159
of `app.py` to the model's own message object whenever a tool round runs. -/
inductive ChatMsgVar where
  | userStr (s : String)
  | modelMsg (m : ModelMessage)

/-- One entry of the running `messages` list: the system/user/assistant dicts
built by the engine, the model's own message object appended after a tool
round, and the tool-role result dicts.  A user entry carries a `ChatMsgVar`
because `Me.rerun` re-appends whatever the rebindable `message` variable
holds. -/
inductive Msg where
  | system (content : String)
  | user (content : ChatMsgVar)
  | assistant (content : String)
  | assistantMsg (m : ModelMessage)
  | tool (content : String) (tool_call_id : String)

/-- Model response as `Me.chat` consumes it: the finish reason and message of
`response.choices[0]` (the single choice returned by the backends). -/
structure ModelResponse where
  finish_reason : String
  message : ModelMessage

/-- Python `repr` of one tool-call object (the openai client's pydantic
repr, with a `valid` payload rendered through its canonical JSON text; the
field elision is cosmetic and nothing below depends on this text). -/
def toolCallRepr (tc : ToolCall) : String :=
  "ChatCompletionMessageToolCall(id=" ++ pyReprStr tc.id ++ ", function=Function(arguments=" ++
    (match tc.function.arguments with
     | ArgPayload.valid kvs => pyReprStr (json_dumps (JValue.obj kvs))
     | ArgPayload.invalid raw => pyReprStr raw) ++
    ", name=" ++ pyReprStr tc.function.name ++ "))"

/-- Python `repr`/`str` of the model's message object, as an f-string would
interpolate it. -/
def modelMessageRepr (m : ModelMessage) : String :=
  "ChatCompletionMessage(content=" ++
    (match m.content with
     | none => "None"
     | some s => pyReprStr s) ++
    ", tool_calls=[" ++ String.intercalate ", " (m.tool_calls.map toolCallRepr) ++ "])"

/-- Python `str()` of the `message` variable, as the evaluator's f-string
sees it. -/
def ChatMsgVar.pyText : ChatMsgVar → String
  | ChatMsgVar.userStr s => s
  | ChatMsgVar.modelMsg m => modelMessageRepr m

/-- Python `str()` of `reply` (a string, or `None` when the final response
had no content). -/
def pyShowOptStr : Option String → String
  | none => "None"
  | some s => s

/-- Python `repr` of one entry of a messages/history list. -/
def msgRepr : Msg → String
  | Msg.system c => "\x7b\'role\': \'system\', \'content\': " ++ pyReprStr c ++ "\x7d"
  | Msg.user (ChatMsgVar.userStr s) =>
      "\x7b\'role\': \'user\', \'content\': " ++ pyReprStr s ++ "\x7d"
  | Msg.user (ChatMsgVar.modelMsg m) =>
      "\x7b\'role\': \'user\', \'content\': " ++ modelMessageRepr m ++ "\x7d"
  | Msg.assistant c => "\x7b\'role\': \'assistant\', \'content\': " ++ pyReprStr c ++ "\x7d"
  | Msg.assistantMsg m => modelMessageRepr m
  | Msg.tool c tcid =>
      "\x7b\'role\': \'tool\', \'content\': " ++ pyReprStr c ++ ", \'tool_call_id\': " ++
        pyReprStr tcid ++ "\x7d"

/-- Python `str()` of the history list, as the evaluator's f-string
interpolates `{history}`. -/
def historyRepr (history : List Msg) : String :=
  "[" ++ String.intercalate ", " (history.map msgRepr) ++ "]"

/-- Pydantic model `Evaluation` of `app.py` (lines 17-19): the structured
output contract of the evaluator call. -/
structure Evaluation where
  is_acceptable : Bool
  feedback : String

/-- JSON schema dict `record_user_details_json` of `app.py` (lines 51-74). -/
def record_user_details_json : JValue :=
  JValue.obj
    [("name", JValue.str "record_user_details"),
     ("description", JValue.str
       "Use this tool to record that a user is interested in being in touch and provided an email address"),
     ("parameters", JValue.obj
       [("type", JValue.str "object"),
        ("properties", JValue.obj
          [("email", JValue.obj
             [("type", JValue.str "string"),
              ("description", JValue.str "The email address of this user")]),
           ("name", JValue.obj
             [("type", JValue.str "string"),
              ("description", JValue.str "The user\'s name, if they provided it")]),
           ("notes", JValue.obj
             [("type", JValue.str "string"),
              ("description", JValue.str
                "Any additional information about the conversation that\'s worth recording to give context")])]),
        ("required", JValue.arr [JValue.str "email"]),
        ("additionalProperties", JValue.bool false)])]

/-- JSON schema dict `record_unknown_question_json` of `app.py`
(lines 77-91). -/
def record_unknown_question_json : JValue :=
  JValue.obj
    [("name", JValue.str "record_unknown_question"),
     ("description", JValue.str
       "Always use this tool to record any question that couldn\'t be answered as you didn\'t know the answer"),
     ("parameters", JValue.obj
       [("type", JValue.str "object"),
        ("properties", JValue.obj
          [("question", JValue.obj
             [("type", JValue.str "string"),
              ("description", JValue.str "The question that couldn\'t be answered")])]),
        ("required", JValue.arr [JValue.str "question"]),
        ("additionalProperties", JValue.bool false)])]

/-- Module-level `tools` list of `app.py` (lines 94-95), passed to every
primary model invocation. -/
def toolsJson : JValue :=
  JValue.arr
    [JValue.obj [("type", JValue.str "function"), ("function", record_user_details_json)],
     JValue.obj [("type", JValue.str "function"), ("function", record_unknown_question_json)]]

/-- Outbound collaborator invocations that a turn performs, in order: the
primary `openai` completions call with the tools attached, the `gemini`
completions call of `Me.rerun` (no tools), the structured `gemini` parse call
of `Me.evaluate`, and (as an engine-level record) the argument triple that
`Me.chat` hands to `Me.evaluate` on line 169. -/
inductive Event where
  | createOpenai (model : String) (messages : List Msg) (toolsArg : Option JValue)
  | createGemini (model : String) (messages : List Msg) (toolsArg : Option JValue)
  | parseGemini (model : String) (messages : List Msg)
  | evaluateCall (reply : Option String) (messageArg : ChatMsgVar) (history : List Msg)

/-- Stubs for the three network collaborators: the primary completions
backend, the evaluator's structured-output backend, and the regeneration
backend (which yields `response.choices[0].message.content`). -/
structure Oracles where
  primary : List Msg → ModelResponse
  evaluator : List Msg → Evaluation
  gemini : List Msg → Option String

/-- Grounding state of the agent as `Me.__init__` leaves it: the fixed name,
the text concatenated from the LinkedIn PDF's pages, and the summary file's
text.  The two client handles carry no data relevant to the claims. -/
structure Me where
  name : String
  linkedin : String
  summary : String

/-- Constructor `Me.__init__` (lines 100-112 of `app.py`), with the two file
reads supplied as inputs: each PDF page's extracted text (`none` for a page
where extraction yields nothing) is appended when truthy, and the summary
file's content is stored as read. -/
def Me.init (pages : List (Option String)) (summaryText : String) : Me :=
  { name := "Arpan Bandyopadhyay",
    linkedin := pages.foldl
      (fun acc t =>
        match t with
        | some s => if s = "" then acc else acc ++ s
        | none => acc) "",
    summary := summaryText }

/-- Method `Me.system_prompt` (lines 132-143 of `app.py`): the grounding
system prompt, interpolating the agent's name, summary and LinkedIn text. -/
def Me.system_prompt (me : Me) : String :=
  "You are acting as " ++ me.name ++ ". You are answering questions on " ++ me.name ++
    "\'s website, particularly questions related to " ++ me.name ++
    "\'s career, background, skills and experience. Your responsibility is to represent " ++
    me.name ++ " for interactions on the website as faithfully as possible. " ++
    "You are given a summary of " ++ me.name ++
    "\'s background and LinkedIn profile which you can use to answer questions. " ++
    "Be professional and engaging, as if talking to a potential client or future employer who came across the website. " ++
    "If you don\'t know the answer to any question, use your record_unknown_question tool to record the question that you couldn\'t answer, even if it\'s about something trivial or unrelated to career. " ++
    "If the user is engaging in discussion, try to steer them towards getting in touch via email; ask for their email and record it using your record_user_details tool. " ++
    "\n\n## Summary:\n" ++ me.summary ++ "\n\n## LinkedIn Profile:\n" ++ me.linkedin ++ "\n\n" ++
    "With this context, please chat with the user, always staying in character as " ++ me.name ++ "."

/-- Method `Me.evaluator_system_prompt` (lines 197-206 of `app.py`); the
four-space runs reproduce the indentation that the source's backslash
line-continuations splice into the literal. -/
def Me.evaluator_system_prompt (me : Me) : String :=
  "You are an evaluator that decides whether a response to a question is acceptable. " ++
    "    You are provided with a conversation between a User and an Agent. Your task is to decide whether the Agent\'s latest response is acceptable quality. " ++
    "    The Agent is playing the role of " ++ me.name ++ " and is representing " ++ me.name ++
    " on their website. " ++
    "    The Agent has been instructed to be professional and engaging, as if talking to a potential client or future employer who came across the website. " ++
    "    The Agent has been provided with context on " ++ me.name ++
    " in the form of their summary and LinkedIn details. Here\'s the information:" ++
    "\n\n## Summary:\n" ++ me.summary ++ "\n\n## LinkedIn Profile:\n" ++ me.linkedin ++ "\n\n" ++
    "With this context, please evaluate the latest response, replying with whether the response is acceptable and your feedback."

/-- Method `Me.evaluator_user_prompt` (lines 211-225 of `app.py`): the
evaluator's user prompt, interpolating the history list, the current value of
the `message` variable and the candidate reply through `str()`. -/
def Me.evaluator_user_prompt (me : Me) (reply : Option String) (message : ChatMsgVar)
    (history : List Msg) : String :=
  "Here\'s the conversation between the User and the Agent: \n\n" ++ historyRepr history ++
    "\n\n" ++
    "Here\'s the latest message from the User: \n\n" ++ message.pyText ++ "\n\n" ++
    "Here\'s the latest response from the Agent: \n\n" ++ pyShowOptStr reply ++ "\n\n" ++
    "Please evaluate the response, replying with whether it is acceptable and your feedback."

/-- Method `Me.evaluate` (lines 235-238 of `app.py`): one structured-output
call on the gemini client over the evaluator prompts; the oracle supplies the
parsed `Evaluation`.  Returned alongside: the API events this method
performs. -/
def Me.evaluate (me : Me) (O : Oracles) (reply : Option String) (message : ChatMsgVar)
    (history : List Msg) : Evaluation × List Event :=
  let messages := [Msg.system me.evaluator_system_prompt,
    Msg.user (ChatMsgVar.userStr (me.evaluator_user_prompt reply message history))]
  (O.evaluator messages, [Event.parseGemini "gemini-2.0-flash" messages])

/-- Annotated system prompt that `Me.rerun` builds (lines 187-189 of
`app.py`): the grounding prompt plus the rejected answer and the evaluator's
feedback. -/
def Me.rerunSystemPrompt (me : Me) (reply : Option String) (feedback : String) : String :=
  me.system_prompt ++
    "\n\n## Previous answer rejected\nYou just tried to reply, but the quality control rejected your reply\n" ++
    "## Your attempted answer:\n" ++ pyShowOptStr reply ++ "\n\n" ++
    "## Reason for rejection:\n" ++ feedback ++ "\n\n"

/-- Method `Me.rerun` (lines 186-192 of `app.py`): one completions call on
the gemini client, without tools, over the annotated system prompt, the
history and the current value of the `message` variable; returns the new
content together with the API events this method performs. -/
def Me.rerun (me : Me) (O : Oracles) (reply : Option String) (message : ChatMsgVar)
    (history : List Msg) (feedback : String) : Option String × List Event :=
  let messages := Msg.system (me.rerunSystemPrompt reply feedback) :: history ++ [Msg.user message]
  (O.gemini messages, [Event.createGemini "gemini-2.0-flash" messages none])

/-- Tool-role dict appended to `messages` for one `ToolResult`. -/
def toolResultMsg (tr : ToolResult) : Msg :=
  Msg.tool tr.content tr.tool_call_id

/-- Outcome of the `while not done` loop of `Me.chat` (lines 154-165 of
`app.py`) when it exits: the final response, the value the `message` variable
holds at exit, the extended messages list, and the notifications and API
events accumulated so far. -/
structure LoopOut where
  response : ModelResponse
  messageVar : ChatMsgVar
  messages : List Msg
  notifications : List JValue
  events : List Event

/-- Loop of `Me.chat`: invoke the primary model on the running messages list;
on `finish_reason == "tool_calls"` rebind the `message` variable to the
model's message, dispatch its tool calls, append the model message and the
results, and iterate; otherwise exit with the response.  A raise inside
dispatch aborts the turn (`Except.error`); `none` is fuel exhaustion of the
unbounded source loop. -/
def chatLoop (O : Oracles) : Nat → List Msg → ChatMsgVar → List JValue → List Event →
    Option (Except PyError LoopOut)
  | 0, _, _, _, _ => none
  | Nat.succ fuel, messages, mv, notifs, evs =>
      let response := O.primary messages
      let evs2 := evs ++ [Event.createOpenai "gpt-4o-mini" messages (some toolsJson)]
      if response.finish_reason = "tool_calls" then
        let m := response.message
        match handle_tool_call m.tool_calls with
        | (_, Except.error e) => some (Except.error e)
        | (ns, Except.ok results) =>
            chatLoop O fuel (messages ++ [Msg.assistantMsg m] ++ results.map toolResultMsg)
              (ChatMsgVar.modelMsg m) (notifs ++ ns) evs2
      else
        some (Except.ok ⟨response, mv, messages, notifs, evs2⟩)

/-- Result of one turn of `Me.chat`: the returned reply, the candidate reply
the loop produced before the evaluation gate (the local `reply` of line 167),
and the turn's notifications and API events. -/
structure ChatResult where
  reply : Option String
  candidate : Option String
  notifications : List JValue
  events : List Event

/-- Method `Me.chat` (lines 151-178 of `app.py`): build the fresh messages
list from the system prompt, the caller's history and the new user message;
run the tool loop; take the final response's content as the candidate reply;
evaluate it (passing the current value of the `message` variable and the
history); return it as-is when acceptable, else return `Me.rerun`'s output.
`none` is fuel exhaustion, `Except.error` a raise aborting the turn. -/
def Me.chat (me : Me) (O : Oracles) (fuel : Nat) (message : String) (history : List Msg) :
    Option (Except PyError ChatResult) :=
  let messages := Msg.system me.system_prompt :: history ++ [Msg.user (ChatMsgVar.userStr message)]
  match chatLoop O fuel messages (ChatMsgVar.userStr message) [] [] with
  | none => none
  | some (Except.error e) => some (Except.error e)
  | some (Except.ok out) =>
      let reply := out.response.message.content
      let (evaluation, evalEvents) := me.evaluate O reply out.messageVar history
      let evs := out.events ++ [Event.evaluateCall reply out.messageVar history] ++ evalEvents
      if evaluation.is_acceptable then
        some (Except.ok ⟨reply, reply, out.notifications, evs⟩)
      else
        let (newReply, rerunEvents) :=
          me.rerun O reply out.messageVar history evaluation.feedback
        some (Except.ok ⟨newReply, reply, out.notifications, evs ++ rerunEvents⟩)

/-- Whether an event is a primary-model invocation. -/
def Event.isPrimary : Event → Bool
  | Event.createOpenai _ _ _ => true
  | _ => false

/-- Messages of each primary (openai) completions invocation, in order. -/
def openaiCalls (evs : List Event) : List (List Msg) :=
  evs.filterMap fun e =>
    match e with
    | Event.createOpenai _ ms _ => some ms
    | _ => none

/-- Messages and tools argument of each gemini completions invocation (the
regeneration calls), in order. -/
def geminiCalls (evs : List Event) : List (List Msg × Option JValue) :=
  evs.filterMap fun e =>
    match e with
    | Event.createGemini _ ms t => some (ms, t)
    | _ => none

/-- Messages of each gemini structured-parse invocation (the evaluator
calls), in order. -/
def parseCalls (evs : List Event) : List (List Msg) :=
  evs.filterMap fun e =>
    match e with
    | Event.parseGemini _ ms => some ms
    | _ => none

/-- Argument triples `(reply, message, history)` of each engine-level call of
`Me.evaluate`, in order. -/
def evalArgs (evs : List Event) : List (Option String × ChatMsgVar × List Msg) :=
  evs.filterMap fun e =>
    match e with
    | Event.evaluateCall r mv h => some (r, mv, h)
    | _ => none

/-- Substring containment of Python f-string interpolation results. -/
def strHasSubstr (hay needle : String) : Prop :=
  ∃ p q : String, hay = p ++ needle ++ q

theorem geminiCalls_append (a b : List Event) :
    geminiCalls (a ++ b) = geminiCalls a ++ geminiCalls b :=
  List.filterMap_append a b _

theorem parseCalls_append (a b : List Event) :
    parseCalls (a ++ b) = parseCalls a ++ parseCalls b :=
  List.filterMap_append a b _

theorem evalArgs_append (a b : List Event) :
    evalArgs (a ++ b) = evalArgs a ++ evalArgs b :=
  List.filterMap_append a b _

theorem openaiCalls_append (a b : List Event) :
    openaiCalls (a ++ b) = openaiCalls a ++ openaiCalls b :=
  List.filterMap_append a b _

theorem geminiCalls_of_primary (l : List Event) (h : ∀ e ∈ l, e.isPrimary = true) :
    geminiCalls l = [] := by
  rw [geminiCalls, List.filterMap_eq_nil_iff]
  intro e he
  cases e with
  | createOpenai m ms t => rfl
  | createGemini m ms t => exact absurd (h _ he) (by simp [Event.isPrimary])
  | parseGemini m ms => exact absurd (h _ he) (by simp [Event.isPrimary])
  | evaluateCall r mv hi => exact absurd (h _ he) (by simp [Event.isPrimary])

theorem parseCalls_of_primary (l : List Event) (h : ∀ e ∈ l, e.isPrimary = true) :
    parseCalls l = [] := by
  rw [parseCalls, List.filterMap_eq_nil_iff]
  intro e he
  cases e with
  | createOpenai m ms t => rfl
  | createGemini m ms t => exact absurd (h _ he) (by simp [Event.isPrimary])
  | parseGemini m ms => exact absurd (h _ he) (by simp [Event.isPrimary])
  | evaluateCall r mv hi => exact absurd (h _ he) (by simp [Event.isPrimary])

theorem evalArgs_of_primary (l : List Event) (h : ∀ e ∈ l, e.isPrimary = true) :
    evalArgs l = [] := by
  rw [evalArgs, List.filterMap_eq_nil_iff]
  intro e he
  cases e with
  | createOpenai m ms t => rfl
  | createGemini m ms t => exact absurd (h _ he) (by simp [Event.isPrimary])
  | parseGemini m ms => exact absurd (h _ he) (by simp [Event.isPrimary])
  | evaluateCall r mv hi => exact absurd (h _ he) (by simp [Event.isPrimary])

/-- Shape of the events a completed tool loop leaves behind: the inherited
prefix, then the primary invocation on the entry messages, then further
primary invocations only. -/
theorem chatLoop_events (O : Oracles) :
    ∀ fuel msgs mv ns evs out,
      chatLoop O fuel msgs mv ns evs = some (Except.ok out) →
      ∃ rest, out.events = evs ++ Event.createOpenai "gpt-4o-mini" msgs (some toolsJson) :: rest ∧
        ∀ e ∈ rest, e.isPrimary = true := by
  intro fuel
  induction fuel with
  | zero => intro msgs mv ns evs out h; exact absurd h (by simp [chatLoop])
  | succ fuel ih =>
      intro msgs mv ns evs out h
      simp only [chatLoop] at h
      by_cases hf : (O.primary msgs).finish_reason = "tool_calls"
      · rw [if_pos hf] at h
        rcases hh : handle_tool_call (O.primary msgs).message.tool_calls with ⟨ns0, res⟩
        rw [hh] at h
        cases res with
        | error e => simp at h
        | ok results =>
            obtain ⟨rest, hrest, hprim⟩ := ih _ _ _ _ _ h
            refine ⟨Event.createOpenai "gpt-4o-mini"
              (msgs ++ [Msg.assistantMsg (O.primary msgs).message] ++ results.map toolResultMsg)
              (some toolsJson) :: rest, ?_, ?_⟩
            · rw [hrest]; simp
            · intro e he
              rcases List.mem_cons.mp he with h1 | h2
              · rw [h1]; rfl
              · exact hprim _ h2
      · rw [if_neg hf] at h
        have h3 := Except.ok.inj (Option.some.inj h)
        refine ⟨[], ?_, ?_⟩
        · rw [← h3]
        · intro e he; cases he

/-- Every primary invocation of a completed tool loop keeps the entry
sequence's first message (the loop only appends): any openai call recorded
beyond the inherited events starts with the same head as the entry
messages. -/
theorem chatLoop_head (O : Oracles) :
    ∀ fuel a t mv ns evs out,
      chatLoop O fuel (a :: t) mv ns evs = some (Except.ok out) →
      ∀ ms ∈ openaiCalls out.events, ms ∈ openaiCalls evs ∨ ms.head? = some a := by
  intro fuel
  induction fuel with
  | zero => intro a t mv ns evs out h; exact absurd h (by simp [chatLoop])
  | succ fuel ih =>
      intro a t mv ns evs out h
      simp only [chatLoop] at h
      by_cases hf : (O.primary (a :: t)).finish_reason = "tool_calls"
      · rw [if_pos hf] at h
        rcases hh : handle_tool_call (O.primary (a :: t)).message.tool_calls with ⟨ns0, res⟩
        rw [hh] at h
        cases res with
        | error e => simp at h
        | ok results =>
            intro ms hms
            rcases ih _ _ _ _ _ _ h ms hms with hin | hhd
            · rw [openaiCalls_append] at hin
              rcases List.mem_append.mp hin with h1 | h2
              · exact Or.inl h1
              · right
                have hms2 : ms = a :: t := by
                  simpa [openaiCalls] using h2
                rw [hms2]; rfl
            · exact Or.inr hhd
      · rw [if_neg hf] at h
        have h3 := Except.ok.inj (Option.some.inj h)
        intro ms hms
        rw [← h3] at hms
        simp only [openaiCalls_append] at hms
        rcases List.mem_append.mp hms with h1 | h2
        · exact Or.inl h1
        · right
          have hms2 : ms = a :: t := by simpa [openaiCalls] using h2
          rw [hms2]; rfl

/-- Successful single-call dispatch tags the result with the originating
call's id. -/
theorem dispatchOne_id (tc : ToolCall) (x : List JValue × ToolResult)
    (h : dispatchOne tc = Except.ok x) : x.snd.tool_call_id = tc.id := by
  unfold dispatchOne at h
  rcases hj : json_loads tc.function.arguments with e | args <;> rw [hj] at h <;> dsimp only at h
  · cases h
  · rcases hl : moduleGlobals.lookup tc.function.name with _ | g <;> rw [hl] at h <;>
      dsimp only at h
    · rw [← Except.ok.inj h]
    · rcases hi : invokeGlobal g args with e | pr <;> rw [hi] at h <;> dsimp only at h
      · cases h
      · rcases pr with ⟨ns0, result⟩
        dsimp only at h
        rw [← Except.ok.inj h]

/-- Successful dispatch produces exactly one result per call, in order, each
tagged with the originating call's id. -/
theorem handle_tool_call_ids :
    ∀ calls ns results, handle_tool_call calls = (ns, Except.ok results) →
      results.map ToolResult.tool_call_id = calls.map ToolCall.id := by
  intro calls
  induction calls with
  | nil =>
      intro ns results h
      simp only [handle_tool_call, Prod.mk.injEq, Except.ok.injEq] at h
      rw [← h.2]
      rfl
  | cons tc rest ih =>
      intro ns results h
      rcases hd : dispatchOne tc with e | pr
      · simp only [handle_tool_call, hd, Prod.mk.injEq] at h
        exact absurd h.2 (by simp)
      · rcases pr with ⟨ns0, tr⟩
        simp only [handle_tool_call, hd] at h
        rcases hr : handle_tool_call rest with ⟨ns2, res2⟩
        rw [hr] at h
        cases res2 with
        | error e =>
            dsimp only at h
            simp only [Except.map, Prod.mk.injEq] at h
            exact absurd h.2 (by simp)
        | ok rs =>
            dsimp only at h
            simp only [Except.map, Prod.mk.injEq, Except.ok.injEq] at h
            rw [← h.2]
            simp [ih _ _ hr]
            exact dispatchOne_id tc _ hd

/-- A call whose payload fails to parse makes single-call dispatch raise the
decode error. -/
theorem dispatchOne_invalid (tc : ToolCall) (raw : String)
    (h : tc.function.arguments = ArgPayload.invalid raw) :
    dispatchOne tc = Except.error (PyError.jsonDecodeError raw) := by
  unfold dispatchOne
  rw [h]
  rfl

/-- A batch holding any call whose payload fails to parse makes dispatch
raise: the returned outcome is an error, so no result list is produced. -/
theorem handle_tool_call_raises :
    ∀ calls, (∃ tc ∈ calls, ∃ raw, tc.function.arguments = ArgPayload.invalid raw) →
      ∃ e, (handle_tool_call calls).snd = Except.error e := by
  intro calls
  induction calls with
  | nil => rintro ⟨tc, htc, _⟩; cases htc
  | cons tc rest ih =>
      rintro ⟨tc0, htc0, raw, hraw⟩
      rcases hd : dispatchOne tc with e | pr
      · exact ⟨e, by simp only [handle_tool_call, hd]⟩
      · rcases pr with ⟨ns0, tr⟩
        rcases List.mem_cons.mp htc0 with heq | hmem
        · rw [heq] at hraw
          rw [dispatchOne_invalid tc raw hraw] at hd
          cases hd
        · obtain ⟨e, he⟩ := ih ⟨tc0, hmem, raw, hraw⟩
          rcases hr : handle_tool_call rest with ⟨ns2, res2⟩
          rw [hr] at he
          simp only at he
          refine ⟨e, ?_⟩
          simp only [handle_tool_call, hd, hr, he]
          rfl

/-- A call whose name is absent from the module globals (with a parseable
payload) dispatches to the empty-dict fallback. -/
theorem dispatchOne_absent (tc : ToolCall) (kvs : List (String × JValue))
    (h1 : tc.function.arguments = ArgPayload.valid kvs)
    (h2 : moduleGlobals.lookup tc.function.name = none) :
    dispatchOne tc = Except.ok ([], ⟨"\x7b\x7d", tc.id⟩) := by
  unfold dispatchOne
  rw [h1]
  dsimp only [json_loads]
  rw [h2]
  rfl

/-- Single-call batch with an absent name: no notification, one empty-object
result tagged with the call's id. -/
theorem handle_tool_call_absent (tc : ToolCall) (kvs : List (String × JValue))
    (h1 : tc.function.arguments = ArgPayload.valid kvs)
    (h2 : moduleGlobals.lookup tc.function.name = none) :
    handle_tool_call [tc] = ([], Except.ok [⟨"\x7b\x7d", tc.id⟩]) := by
  simp only [handle_tool_call, dispatchOne_absent tc kvs h1 h2]
  rfl

/-- A call whose name resolves to a module-level binding invokes that binding
on the parsed arguments: the batch outcome is whatever that invocation
raises or returns. -/
theorem handle_tool_call_present (tc : ToolCall) (kvs : List (String × JValue)) (g : PyGlobal)
    (h1 : tc.function.arguments = ArgPayload.valid kvs)
    (h2 : moduleGlobals.lookup tc.function.name = some g) :
    handle_tool_call [tc] =
      (match invokeGlobal g (mkDict kvs) with
       | Except.error e => ([], Except.error e)
       | Except.ok (ns0, v) => (ns0, Except.ok [⟨json_dumps v, tc.id⟩])) := by
  have hd : dispatchOne tc =
      (match invokeGlobal g (mkDict kvs) with
       | Except.error e => Except.error e
       | Except.ok (ns0, v) => Except.ok (ns0, ⟨json_dumps v, tc.id⟩)) := by
    unfold dispatchOne
    rw [h1]
    dsimp only [json_loads]
    rw [h2]
  rcases hi : invokeGlobal g (mkDict kvs) with e | pr
  · rw [hi] at hd
    dsimp only at hd
    simp only [handle_tool_call, hd]
  · rcases pr with ⟨ns0, v⟩
    rw [hi] at hd
    dsimp only at hd
    simp only [handle_tool_call, hd]
    refine Prod.ext ?_ ?_
    · simp
    · rfl

/-- C2 counterexample: the claim quantifies over every tool name other than
the two declared tools, but the name `push` — neither declared tool — is a
module-level function, so its ToolCall is dispatched to `push` itself: the
notification fires and the result payload is `null`, not the empty
object. -/
theorem c2_unknown_tool_counterexample :
    ("push" ≠ "record_user_details" ∧ "push" ≠ "record_unknown_question") ∧
    handle_tool_call
        [⟨"call_1", ⟨"push", ArgPayload.valid [("text", JValue.str "hello")]⟩⟩] =
      ([JValue.str "hello"], Except.ok [⟨"null", "call_1"⟩]) ∧
    ("null" : String) ≠ "\x7b\x7d" :=
  ⟨⟨by decide, by decide⟩, rfl, by decide⟩

/-- C2 (amended): a ToolCall whose name is absent from the module's global
scope and whose argument payload parses yields, without raising, a single
ToolResult whose content is the serialized empty object, tagged with that
call's id. -/
theorem c2_unknown_tool_amended (tc : ToolCall) (kvs : List (String × JValue))
    (h1 : tc.function.arguments = ArgPayload.valid kvs)
    (h2 : moduleGlobals.lookup tc.function.name = none) :
    handle_tool_call [tc] = ([], Except.ok [⟨"\x7b\x7d", tc.id⟩]) :=
  handle_tool_call_absent tc kvs h1 h2

/-- C2 witness: the amended theorem at the unknown name `frobnicate`. -/
theorem c2_unknown_tool_amended_witness :
    handle_tool_call [⟨"call_9", ⟨"frobnicate", ArgPayload.valid []⟩⟩] =
      ([], Except.ok [⟨"\x7b\x7d", "call_9"⟩]) :=
  c2_unknown_tool_amended ⟨"call_9", ⟨"frobnicate", ArgPayload.valid []⟩⟩ [] rfl rfl

/-- C3: dispatch resolves tool names against the module's global scope, not a
closed two-tool registry: (1) the empty-result fallback fires when the name
is absent from the module globals; (2) a name bound to any module-level
value invokes that value on the parsed arguments; (3) in particular a
ToolCall named `push` executes `push`, firing the notification and returning
`null`; (4) a name bound to a non-callable global (here the `tools` list)
makes dispatch raise `TypeError`. -/
theorem c3_global_scope_dispatch :
    (∀ (tc : ToolCall) (kvs : List (String × JValue)),
        tc.function.arguments = ArgPayload.valid kvs →
        moduleGlobals.lookup tc.function.name = none →
        handle_tool_call [tc] = ([], Except.ok [⟨"\x7b\x7d", tc.id⟩])) ∧
    (∀ (tc : ToolCall) (kvs : List (String × JValue)) (g : PyGlobal),
        tc.function.arguments = ArgPayload.valid kvs →
        moduleGlobals.lookup tc.function.name = some g →
        handle_tool_call [tc] =
          (match invokeGlobal g (mkDict kvs) with
           | Except.error e => ([], Except.error e)
           | Except.ok (ns0, v) => (ns0, Except.ok [⟨json_dumps v, tc.id⟩]))) ∧
    handle_tool_call
        [⟨"call_1", ⟨"push", ArgPayload.valid [("text", JValue.str "ping")]⟩⟩] =
      ([JValue.str "ping"], Except.ok [⟨"null", "call_1"⟩]) ∧
    handle_tool_call [⟨"call_2", ⟨"tools", ArgPayload.valid []⟩⟩] =
      ([], Except.error (PyError.typeErrorNotCallable "tools")) :=
  ⟨handle_tool_call_absent, fun tc kvs g h1 h2 => handle_tool_call_present tc kvs g h1 h2,
   rfl, rfl⟩

/-- C3 witness: both universally quantified parts at concrete calls — an
absent name and the present name `record_unknown_question`. -/
theorem c3_global_scope_dispatch_witness :
    handle_tool_call [⟨"call_7", ⟨"no_such_tool", ArgPayload.valid []⟩⟩] =
      ([], Except.ok [⟨"\x7b\x7d", "call_7"⟩]) ∧
    handle_tool_call
        [⟨"call_8", ⟨"record_unknown_question",
            ArgPayload.valid [("question", JValue.str "Q")]⟩⟩] =
      ([JValue.str "Recording Q"],
        Except.ok [⟨"\x7b\"recorded\": \"ok\"\x7d", "call_8"⟩]) :=
  ⟨c3_global_scope_dispatch.1 ⟨"call_7", ⟨"no_such_tool", ArgPayload.valid []⟩⟩ [] rfl rfl,
   c3_global_scope_dispatch.2.1
     ⟨"call_8", ⟨"record_unknown_question", ArgPayload.valid [("question", JValue.str "Q")]⟩⟩
     [("question", JValue.str "Q")] PyGlobal.recordUnknownQuestionFn rfl rfl⟩

/-- C8: a ToolCall whose serialized argument payload fails to parse makes
dispatch raise — the batch returns an error and no result list — and at the
engine level the raise propagates out of the tool-dispatch step, aborting the
turn with an error instead of a reply. -/
theorem c8_malformed_arguments_abort :
    (∀ calls, (∃ tc ∈ calls, ∃ raw, tc.function.arguments = ArgPayload.invalid raw) →
        ∃ e, (handle_tool_call calls).snd = Except.error e) ∧
    (∀ (me : Me) (O : Oracles) (fuel : Nat) (message : String) (history : List Msg),
        (O.primary (Msg.system me.system_prompt :: history ++
            [Msg.user (ChatMsgVar.userStr message)])).finish_reason = "tool_calls" →
        (∃ tc ∈ (O.primary (Msg.system me.system_prompt :: history ++
              [Msg.user (ChatMsgVar.userStr message)])).message.tool_calls,
          ∃ raw, tc.function.arguments = ArgPayload.invalid raw) →
        ∃ e, me.chat O (fuel + 1) message history = some (Except.error e)) := by
  refine ⟨handle_tool_call_raises, ?_⟩
  intro me O fuel message history h1 h2
  obtain ⟨e, he⟩ := handle_tool_call_raises _ h2
  rcases hr : handle_tool_call (O.primary (Msg.system me.system_prompt :: history ++
      [Msg.user (ChatMsgVar.userStr message)])).message.tool_calls with ⟨ns2, res2⟩
  rw [hr] at he
  simp only at he
  refine ⟨e, ?_⟩
  have hcl : chatLoop O (fuel + 1)
      (Msg.system me.system_prompt :: history ++ [Msg.user (ChatMsgVar.userStr message)])
      (ChatMsgVar.userStr message) [] [] = some (Except.error e) := by
    simp only [chatLoop]
    rw [if_pos h1, hr, he]
  simp only [Me.chat, hcl]

/-- C8 witness: a single tool call with an unparseable payload aborts the
batch and the turn. -/
theorem c8_malformed_arguments_abort_witness :
    (∃ e, (handle_tool_call
        [⟨"call_3", ⟨"record_unknown_question", ArgPayload.invalid "oops"⟩⟩]).snd =
        Except.error e) ∧
    (∃ e, (Me.init [] "s").chat
        ⟨fun _ => ⟨"tool_calls",
            ⟨none, [⟨"call_3", ⟨"record_unknown_question", ArgPayload.invalid "oops"⟩⟩]⟩⟩,
          fun _ => ⟨true, "ok"⟩, fun _ => none⟩ 1 "hi" [] =
        some (Except.error e)) :=
  ⟨c8_malformed_arguments_abort.1 _
      ⟨⟨"call_3", ⟨"record_unknown_question", ArgPayload.invalid "oops"⟩⟩,
        List.mem_singleton.mpr rfl, "oops", rfl⟩,
   c8_malformed_arguments_abort.2 (Me.init [] "s") _ 0 "hi" [] rfl
      ⟨⟨"call_3", ⟨"record_unknown_question", ArgPayload.invalid "oops"⟩⟩,
        List.mem_singleton.mpr rfl, "oops", rfl⟩⟩

/-- C9: `record_user_details` (for any email, name and notes) and
`record_unknown_question` (for any question) return the fixed acknowledgement
object and their only side effect is the single outbound notification
carrying the recorded text; through dispatch, the optional arguments take
their declared defaults. -/
theorem c9_tools_fixed_ack :
    (∀ email name notes : JValue,
        record_user_details email name notes =
          ([JValue.str ("Recording " ++ pyStr name ++ " with email " ++ pyStr email ++
              " and notes " ++ pyStr notes)],
           JValue.obj [("recorded", JValue.str "ok")])) ∧
    (∀ question : JValue,
        record_unknown_question question =
          ([JValue.str ("Recording " ++ pyStr question)],
           JValue.obj [("recorded", JValue.str "ok")])) ∧
    handle_tool_call
        [⟨"call_1", ⟨"record_user_details",
            ArgPayload.valid [("email", JValue.str "a@b.c")]⟩⟩] =
      ([JValue.str "Recording Name not provided with email a@b.c and notes not provided"],
       Except.ok [⟨"\x7b\"recorded\": \"ok\"\x7d", "call_1"⟩]) :=
  ⟨fun _ _ _ => rfl, fun _ => rfl, rfl⟩

/-- C5: every successfully dispatched batch yields exactly one ToolResult per
ToolCall, tagged with the same call ids in the same order; and a tool-calls
round of the engine loop appends the model's tool-request message followed by
exactly those results to the message sequence before the next primary
invocation. -/
theorem c5_tool_round_trip :
    (∀ calls ns results, handle_tool_call calls = (ns, Except.ok results) →
        results.map ToolResult.tool_call_id = calls.map ToolCall.id) ∧
    (∀ (O : Oracles) (fuel : Nat) (messages : List Msg) (mv : ChatMsgVar)
        (ns ns2 : List JValue) (evs : List Event) (results : List ToolResult),
        (O.primary messages).finish_reason = "tool_calls" →
        handle_tool_call (O.primary messages).message.tool_calls = (ns2, Except.ok results) →
        chatLoop O (fuel + 1) messages mv ns evs =
          chatLoop O fuel
            (messages ++ [Msg.assistantMsg (O.primary messages).message] ++
              results.map toolResultMsg)
            (ChatMsgVar.modelMsg (O.primary messages).message) (ns ++ ns2)
            (evs ++ [Event.createOpenai "gpt-4o-mini" messages (some toolsJson)])) := by
  refine ⟨handle_tool_call_ids, ?_⟩
  intro O fuel messages mv ns ns2 evs results h1 h2
  simp only [chatLoop]
  rw [if_pos h1, h2]

/-- Scripted single tool call used by the C5 witness. -/
def c5Call : ToolCall :=
  ⟨"id1", ⟨"record_unknown_question", ArgPayload.valid [("question", JValue.str "q")]⟩⟩

/-- Oracle whose primary model always requests the scripted tool call. -/
def c5Oracle : Oracles :=
  { primary := fun _ => ⟨"tool_calls", ⟨none, [c5Call]⟩⟩,
    evaluator := fun _ => ⟨true, ""⟩,
    gemini := fun _ => none }

/-- C5 witness: both parts at the scripted call — the id correspondence for
its dispatched batch, and one unrolling of the loop step. -/
theorem c5_tool_round_trip_witness :
    ([⟨"\x7b\"recorded\": \"ok\"\x7d", "id1"⟩] : List ToolResult).map ToolResult.tool_call_id =
        [c5Call].map ToolCall.id ∧
    chatLoop c5Oracle 1 [] (ChatMsgVar.userStr "u") [] [] =
      chatLoop c5Oracle 0
        ([] ++ [Msg.assistantMsg (c5Oracle.primary []).message] ++
          ([⟨"\x7b\"recorded\": \"ok\"\x7d", "id1"⟩] : List ToolResult).map toolResultMsg)
        (ChatMsgVar.modelMsg (c5Oracle.primary []).message)
        ([] ++ [JValue.str "Recording q"])
        ([] ++ [Event.createOpenai "gpt-4o-mini" [] (some toolsJson)]) :=
  ⟨c5_tool_round_trip.1 [c5Call] [JValue.str "Recording q"] _ rfl,
   c5_tool_round_trip.2 c5Oracle 0 [] (ChatMsgVar.userStr "u") [] [JValue.str "Recording q"] []
     [⟨"\x7b\"recorded\": \"ok\"\x7d", "id1"⟩] rfl rfl⟩

/-- Every event a completed tool loop emits is a primary invocation (with the
first one on the entry messages). -/
theorem chatLoop_events_primary (O : Oracles) (fuel : Nat) (msgs : List Msg) (mv : ChatMsgVar)
    (ns : List JValue) (out : LoopOut)
    (h : chatLoop O fuel msgs mv ns [] = some (Except.ok out)) :
    ∀ e ∈ out.events, e.isPrimary = true := by
  obtain ⟨rest, hev, hprim⟩ := chatLoop_events O fuel msgs mv ns [] out h
  rw [hev]
  intro e he
  rcases List.mem_cons.mp (by simpa using he) with heq | hmem
  · rw [heq]; rfl
  · exact hprim _ hmem

/-- C6: when the evaluator accepts, the returned reply is the candidate reply
itself and the regeneration backend is never invoked. -/
theorem c6_acceptance_short_circuit
    (me : Me) (O : Oracles) (fuel : Nat) (message : String) (history : List Msg)
    (r : ChatResult)
    (hacc : ∀ ms, (O.evaluator ms).is_acceptable = true)
    (h : me.chat O fuel message history = some (Except.ok r)) :
    r.reply = r.candidate ∧ geminiCalls r.events = [] := by
  simp only [Me.chat, Me.evaluate] at h
  cases hcl : chatLoop O fuel
      (Msg.system me.system_prompt :: history ++ [Msg.user (ChatMsgVar.userStr message)])
      (ChatMsgVar.userStr message) [] [] with
  | none => rw [hcl] at h; exact absurd h (by simp)
  | some exc =>
      cases exc with
      | error e => rw [hcl] at h; exact absurd h (by simp)
      | ok out =>
          rw [hcl] at h
          dsimp only at h
          split at h
          · have hr := (Except.ok.inj (Option.some.inj h)).symm
            subst hr
            refine ⟨rfl, ?_⟩
            have hprim := chatLoop_events_primary O fuel _ _ _ _ hcl
            dsimp only
            rw [geminiCalls_append, geminiCalls_append,
              geminiCalls_of_primary _ hprim]
            rfl
          · exact absurd (hacc _) (by assumption)

/-- Evaluator stub accepting every reply, used by the C6 witness. -/
def c6Oracle : Oracles :=
  { primary := fun _ => ⟨"stop", ⟨some "hi there", []⟩⟩,
    evaluator := fun _ => ⟨true, "fine"⟩,
    gemini := fun _ => some "regenerated" }

/-- C6 witness: a turn under an always-accepting evaluator returns the
candidate verbatim with no regeneration call. -/
theorem c6_acceptance_short_circuit_witness :
    ∃ r, (Me.init [] "s").chat c6Oracle 1 "q" [] = some (Except.ok r) ∧
      (r.reply = r.candidate ∧ geminiCalls r.events = []) :=
  ⟨_, rfl, c6_acceptance_short_circuit (Me.init [] "s") c6Oracle 1 "q" [] _
    (fun _ => rfl) rfl⟩

/-- Annotated regeneration prompt carries the rejected reply's text. -/
theorem rerunSystemPrompt_has_reply (me : Me) (reply : Option String) (F : String) :
    strHasSubstr (me.rerunSystemPrompt reply F) (pyShowOptStr reply) := by
  refine ⟨me.system_prompt ++
    ("\n\n## Previous answer rejected\nYou just tried to reply, but the quality control rejected your reply\n" ++
      "## Your attempted answer:\n"),
    "\n\n" ++ ("## Reason for rejection:\n" ++ (F ++ "\n\n")), ?_⟩
  simp only [Me.rerunSystemPrompt, String.append_assoc]

/-- Annotated regeneration prompt carries the evaluator's feedback text. -/
theorem rerunSystemPrompt_has_feedback (me : Me) (reply : Option String) (F : String) :
    strHasSubstr (me.rerunSystemPrompt reply F) F := by
  refine ⟨me.system_prompt ++
    ("\n\n## Previous answer rejected\nYou just tried to reply, but the quality control rejected your reply\n" ++
      ("## Your attempted answer:\n" ++ (pyShowOptStr reply ++
        ("\n\n" ++ "## Reason for rejection:\n")))),
    "\n\n", ?_⟩
  simp only [Me.rerunSystemPrompt, String.append_assoc]

/-- C4: when the evaluator rejects with feedback F, the engine makes exactly
one regeneration call — on the gemini backend, without tools — whose system
prompt contains both the rejected candidate text and the literal feedback F;
that call's output is returned as the final reply, and evaluation ran exactly
once (the regenerated reply is not re-evaluated). -/
theorem c4_regeneration_trigger
    (me : Me) (O : Oracles) (fuel : Nat) (message : String) (history : List Msg)
    (F : String) (r : ChatResult)
    (hrej : ∀ ms, O.evaluator ms = ⟨false, F⟩)
    (h : me.chat O fuel message history = some (Except.ok r)) :
    ∃ ms, geminiCalls r.events = [(ms, none)] ∧
      r.reply = O.gemini ms ∧
      (evalArgs r.events).length = 1 ∧
      ∃ rest, ms = Msg.system (me.rerunSystemPrompt r.candidate F) :: rest ∧
        strHasSubstr (me.rerunSystemPrompt r.candidate F) (pyShowOptStr r.candidate) ∧
        strHasSubstr (me.rerunSystemPrompt r.candidate F) F := by
  simp only [Me.chat, Me.evaluate, Me.rerun] at h
  cases hcl : chatLoop O fuel
      (Msg.system me.system_prompt :: history ++ [Msg.user (ChatMsgVar.userStr message)])
      (ChatMsgVar.userStr message) [] [] with
  | none => rw [hcl] at h; exact absurd h (by simp)
  | some exc =>
      cases exc with
      | error e => rw [hcl] at h; exact absurd h (by simp)
      | ok out =>
          rw [hcl] at h
          dsimp only at h
          split at h
          · rename_i hcond
            rw [hrej] at hcond
            exact absurd hcond (by simp)
          · simp only [hrej] at h
            have hr := (Except.ok.inj (Option.some.inj h)).symm
            subst hr
            have hprim := chatLoop_events_primary O fuel _ _ _ _ hcl
            refine ⟨Msg.system (me.rerunSystemPrompt out.response.message.content F) ::
              history ++ [Msg.user out.messageVar], ?_, rfl, ?_, ?_⟩
            · dsimp only
              rw [geminiCalls_append, geminiCalls_append, geminiCalls_append,
                geminiCalls_of_primary _ hprim]
              rfl
            · dsimp only
              rw [evalArgs_append, evalArgs_append, evalArgs_append,
                evalArgs_of_primary _ hprim]
              rfl
            · exact ⟨history ++ [Msg.user out.messageVar], rfl,
                rerunSystemPrompt_has_reply me _ F,
                rerunSystemPrompt_has_feedback me _ F⟩

/-- Evaluator stub rejecting every reply with feedback `X`, used by the C4
witness. -/
def c4Oracle : Oracles :=
  { primary := fun _ => ⟨"stop", ⟨some "draft answer", []⟩⟩,
    evaluator := fun _ => ⟨false, "X"⟩,
    gemini := fun _ => some "improved answer" }

/-- C4 witness: a rejected turn regenerates exactly once and returns the
secondary model's output. -/
theorem c4_regeneration_trigger_witness :
    ∃ r, (Me.init [] "s").chat c4Oracle 1 "q" [] = some (Except.ok r) ∧
      (∃ ms, geminiCalls r.events = [(ms, none)] ∧
        r.reply = c4Oracle.gemini ms ∧
        (evalArgs r.events).length = 1 ∧
        ∃ rest, ms = Msg.system ((Me.init [] "s").rerunSystemPrompt r.candidate "X") :: rest ∧
          strHasSubstr ((Me.init [] "s").rerunSystemPrompt r.candidate "X")
            (pyShowOptStr r.candidate) ∧
          strHasSubstr ((Me.init [] "s").rerunSystemPrompt r.candidate "X") "X") :=
  ⟨_, rfl, c4_regeneration_trigger (Me.init [] "s") c4Oracle 1 "q" [] "X" _
    (fun _ => rfl) rfl⟩

/-- One unrolling of the engine loop on a tool-calls response with successful
dispatch. -/
theorem chatLoop_step (O : Oracles) (fuel : Nat) (messages : List Msg) (mv : ChatMsgVar)
    (ns ns2 : List JValue) (evs : List Event) (results : List ToolResult)
    (resp : ModelResponse) (hresp : O.primary messages = resp)
    (h1 : resp.finish_reason = "tool_calls")
    (h2 : handle_tool_call resp.message.tool_calls = (ns2, Except.ok results)) :
    chatLoop O (fuel + 1) messages mv ns evs =
      chatLoop O fuel
        (messages ++ [Msg.assistantMsg resp.message] ++ results.map toolResultMsg)
        (ChatMsgVar.modelMsg resp.message) (ns ++ ns2)
        (evs ++ [Event.createOpenai "gpt-4o-mini" messages (some toolsJson)]) := by
  subst hresp
  simp only [chatLoop]
  rw [if_pos h1, h2]

/-- Exit of the engine loop on a plain (non tool-calls) response. -/
theorem chatLoop_stop (O : Oracles) (fuel : Nat) (messages : List Msg) (mv : ChatMsgVar)
    (ns : List JValue) (evs : List Event) (resp : ModelResponse)
    (hresp : O.primary messages = resp)
    (h1 : ¬ resp.finish_reason = "tool_calls") :
    chatLoop O (fuel + 1) messages mv ns evs =
      some (Except.ok ⟨resp, mv, messages, ns,
        evs ++ [Event.createOpenai "gpt-4o-mini" messages (some toolsJson)]⟩) := by
  subst hresp
  simp only [chatLoop]
  rw [if_neg h1]

/-- Scripted model stub that requests the given tool calls on the very first
invocation of a turn (when the messages list still has its initial
`history.length + 2` entries) and answers plainly afterwards. -/
def onceToolOracle (history : List Msg) (tcs : List ToolCall) (c : Option String) : Oracles :=
  { primary := fun msgs =>
      if msgs.length = history.length + 2 then ⟨"tool_calls", ⟨none, tcs⟩⟩
      else ⟨"stop", ⟨c, []⟩⟩,
    evaluator := fun _ => ⟨true, "ok"⟩,
    gemini := fun _ => none }

/-- Model stub that requests (empty) tool calls on every invocation. -/
def alwaysToolOracle : Oracles :=
  { primary := fun _ => ⟨"tool_calls", ⟨none, []⟩⟩,
    evaluator := fun _ => ⟨true, "ok"⟩,
    gemini := fun _ => none }

/-- Under an always-tool-calling model the source's `while not done` loop
never exits: no fuel bound makes the embedded loop return. -/
theorem chatLoop_alwaysTool_none :
    ∀ fuel msgs mv ns evs, chatLoop alwaysToolOracle fuel msgs mv ns evs = none := by
  intro fuel
  induction fuel with
  | zero => intro msgs mv ns evs; rfl
  | succ fuel ih => intro msgs mv ns evs; exact ih _ _ _ _

/-- C7: the tool loop ends exactly when the model answers plainly.  (1) Under
a stub that requests tools exactly once and then answers with content c, the
engine performs exactly one tool round — two primary invocations — and c
becomes the candidate reply.  (2) No round cap exists: under an
always-tool-calling stub the turn never completes, for every fuel bound. -/
theorem c7_loop_termination :
    (∀ (me : Me) (history : List Msg) (u : String) (c : Option String)
        (tcs : List ToolCall) (ns : List JValue) (results : List ToolResult) (fuel : Nat),
        handle_tool_call tcs = (ns, Except.ok results) →
        ∃ r, me.chat (onceToolOracle history tcs c) (fuel + 1 + 1) u history =
            some (Except.ok r) ∧
          (openaiCalls r.events).length = 2 ∧ r.candidate = c) ∧
    (∀ (me : Me) (fuel : Nat) (u : String) (history : List Msg),
        me.chat alwaysToolOracle fuel u history = none) := by
  constructor
  · intro me history u c tcs ns results fuel htc
    have e1 : (onceToolOracle history tcs c).primary
        (Msg.system me.system_prompt :: history ++ [Msg.user (ChatMsgVar.userStr u)]) =
        ⟨"tool_calls", ⟨none, tcs⟩⟩ := by
      simp only [onceToolOracle]
      rw [if_pos]
      simp only [List.length_cons, List.length_append, List.length_nil]
    have e2 : (onceToolOracle history tcs c).primary
        ((Msg.system me.system_prompt :: history ++ [Msg.user (ChatMsgVar.userStr u)]) ++
          [Msg.assistantMsg ⟨none, tcs⟩] ++ results.map toolResultMsg) =
        ⟨"stop", ⟨c, []⟩⟩ := by
      simp only [onceToolOracle]
      rw [if_neg]
      simp only [List.length_cons, List.length_append, List.length_nil, List.length_map]
      omega
    have hloop : chatLoop (onceToolOracle history tcs c) (fuel + 1 + 1)
        (Msg.system me.system_prompt :: history ++ [Msg.user (ChatMsgVar.userStr u)])
        (ChatMsgVar.userStr u) [] [] =
        some (Except.ok ⟨⟨"stop", ⟨c, []⟩⟩, ChatMsgVar.modelMsg ⟨none, tcs⟩,
          (Msg.system me.system_prompt :: history ++ [Msg.user (ChatMsgVar.userStr u)]) ++
            [Msg.assistantMsg ⟨none, tcs⟩] ++ results.map toolResultMsg, ns,
          [Event.createOpenai "gpt-4o-mini"
              (Msg.system me.system_prompt :: history ++ [Msg.user (ChatMsgVar.userStr u)])
              (some toolsJson),
           Event.createOpenai "gpt-4o-mini"
              ((Msg.system me.system_prompt :: history ++ [Msg.user (ChatMsgVar.userStr u)]) ++
                [Msg.assistantMsg ⟨none, tcs⟩] ++ results.map toolResultMsg)
              (some toolsJson)]⟩) := by
      rw [chatLoop_step _ (fuel + 1) _ _ _ ns _ results _ e1 rfl htc,
        chatLoop_stop _ fuel _ _ _ _ _ e2
          (fun hcon => absurd (show ("stop" : String) = "tool_calls" from hcon) (by decide))]
      rfl
    refine ⟨⟨c, c, ns,
      [Event.createOpenai "gpt-4o-mini"
          (Msg.system me.system_prompt :: history ++ [Msg.user (ChatMsgVar.userStr u)])
          (some toolsJson),
       Event.createOpenai "gpt-4o-mini"
          ((Msg.system me.system_prompt :: history ++ [Msg.user (ChatMsgVar.userStr u)]) ++
            [Msg.assistantMsg ⟨none, tcs⟩] ++ results.map toolResultMsg)
          (some toolsJson),
       Event.evaluateCall c (ChatMsgVar.modelMsg ⟨none, tcs⟩) history,
       Event.parseGemini "gemini-2.0-flash"
         [Msg.system me.evaluator_system_prompt,
          Msg.user (ChatMsgVar.userStr
            (me.evaluator_user_prompt c (ChatMsgVar.modelMsg ⟨none, tcs⟩) history))]]⟩,
      ?_, ?_, ?_⟩
    · simp only [Me.chat, Me.evaluate, hloop]
      rfl
    · rfl
    · rfl
  · intro me fuel u history
    simp only [Me.chat, chatLoop_alwaysTool_none]

/-- C7 witness: both parts at concrete inputs — one scripted tool round
yielding candidate "final", and fuel 5 exhausted under the always-tool
stub. -/
theorem c7_loop_termination_witness :
    (∃ r, (Me.init [] "s").chat (onceToolOracle [] [] (some "final")) (0 + 1 + 1) "q" [] =
        some (Except.ok r) ∧
      (openaiCalls r.events).length = 2 ∧ r.candidate = some "final") ∧
    (Me.init [] "s").chat alwaysToolOracle 5 "q" [] = none :=
  ⟨c7_loop_termination.1 (Me.init [] "s") [] "q" (some "final") [] [] [] 0 rfl,
   c7_loop_termination.2 (Me.init [] "s") 5 "q" []⟩

/-- Tool call requested by the scripted model in the C1 scenario. -/
def c1ToolCall : ToolCall :=
  ⟨"call_1", ⟨"record_unknown_question",
    ArgPayload.valid [("question", JValue.str "What is your role?")]⟩⟩

/-- Tool-request message of the C1 scenario's first model response. -/
def c1ToolMsg : ModelMessage := ⟨none, [c1ToolCall]⟩

/-- Scripted oracle for C1: one tool round, then a plain answer; the
evaluator accepts. -/
def c1Oracle : Oracles :=
  { primary := fun msgs =>
      if msgs.length = 2 then ⟨"tool_calls", c1ToolMsg⟩
      else ⟨"stop", ⟨some "I am a software engineer.", []⟩⟩,
    evaluator := fun _ => ⟨true, "good"⟩,
    gemini := fun _ => some "regenerated" }

/-- Scripted oracle for C1's regeneration path: same model script, but the
evaluator rejects with feedback `bad`. -/
def c1OracleR : Oracles :=
  { primary := fun msgs =>
      if msgs.length = 2 then ⟨"tool_calls", c1ToolMsg⟩
      else ⟨"stop", ⟨some "I am a software engineer.", []⟩⟩,
    evaluator := fun _ => ⟨false, "bad"⟩,
    gemini := fun _ => some "regenerated" }

/-- C1 divergence: after one tool round, the engine's single `Me.evaluate`
call receives the model's own tool-request message — the rebound local
`message` of line 159 of `app.py` — not the original user message; and on a
rejected turn the regeneration call likewise places that tool-request message
object, not the original user message, in the final user slot of its prompt.
This refutes the claim for turns with at least one tool-execution round. -/
theorem c1_evaluator_gets_rebound_message :
    (∃ r, (Me.init [] "s").chat c1Oracle 3 "What is your role?" [] = some (Except.ok r) ∧
      evalArgs r.events =
        [(some "I am a software engineer.", ChatMsgVar.modelMsg c1ToolMsg, [])]) ∧
    (∃ r, (Me.init [] "s").chat c1OracleR 3 "What is your role?" [] = some (Except.ok r) ∧
      geminiCalls r.events =
        [([Msg.system ((Me.init [] "s").rerunSystemPrompt
              (some "I am a software engineer.") "bad"),
           Msg.user (ChatMsgVar.modelMsg c1ToolMsg)], none)]) ∧
    ChatMsgVar.modelMsg c1ToolMsg ≠ ChatMsgVar.userStr "What is your role?" :=
  ⟨⟨_, rfl, rfl⟩, ⟨_, rfl, rfl⟩, fun h => ChatMsgVar.noConfusion h⟩

/-- Annotated regeneration prompt extends the construction-time grounding
prompt. -/
theorem rerunSystemPrompt_extends (me : Me) (reply : Option String) (F : String) :
    ∃ ext, me.rerunSystemPrompt reply F = me.system_prompt ++ ext := by
  refine ⟨"\n\n## Previous answer rejected\nYou just tried to reply, but the quality control rejected your reply\n" ++
    ("## Your attempted answer:\n" ++ (pyShowOptStr reply ++
      ("\n\n" ++ ("## Reason for rejection:\n" ++ (F ++ "\n\n"))))), ?_⟩
  simp only [Me.rerunSystemPrompt, String.append_assoc]

/-- C10: the grounding context is fixed at construction and every operation
of a turn reads the same unchanged fields: (1) the first primary invocation's
message sequence is built fresh as exactly the system prompt, the
caller-supplied history and the new user message; (2) every primary
invocation of the turn starts with that same construction-time system prompt;
(3) every evaluator invocation starts with the construction-time evaluator
system prompt; (4) every regeneration invocation's system prompt extends the
construction-time grounding prompt. -/
theorem c10_grounding_immutable
    (me : Me) (O : Oracles) (fuel : Nat) (message : String) (history : List Msg)
    (r : ChatResult)
    (h : me.chat O fuel message history = some (Except.ok r)) :
    (openaiCalls r.events).head? =
        some (Msg.system me.system_prompt :: history ++ [Msg.user (ChatMsgVar.userStr message)]) ∧
    (∀ ms ∈ openaiCalls r.events, ms.head? = some (Msg.system me.system_prompt)) ∧
    (∀ ms ∈ parseCalls r.events, ms.head? = some (Msg.system me.evaluator_system_prompt)) ∧
    (∀ p ∈ geminiCalls r.events, ∃ ext rest,
        p.fst = Msg.system (me.system_prompt ++ ext) :: rest) := by
  simp only [Me.chat, Me.evaluate, Me.rerun] at h
  cases hcl : chatLoop O fuel
      (Msg.system me.system_prompt :: history ++ [Msg.user (ChatMsgVar.userStr message)])
      (ChatMsgVar.userStr message) [] [] with
  | none => rw [hcl] at h; exact absurd h (by simp)
  | some exc =>
      cases exc with
      | error e => rw [hcl] at h; exact absurd h (by simp)
      | ok out =>
          rw [hcl] at h
          dsimp only at h
          obtain ⟨rest, hev, hprim⟩ := chatLoop_events O fuel _ _ _ _ _ hcl
          rw [List.nil_append] at hev
          have hall := chatLoop_events_primary O fuel _ _ _ _ hcl
          have hoe : openaiCalls out.events =
              (Msg.system me.system_prompt :: history ++
                [Msg.user (ChatMsgVar.userStr message)]) :: openaiCalls rest := by
            rw [hev]; rfl
          have hge : geminiCalls out.events = [] := geminiCalls_of_primary _ hall
          have hpe : parseCalls out.events = [] := parseCalls_of_primary _ hall
          have hmem2 : ∀ ms ∈ openaiCalls out.events,
              ms.head? = some (Msg.system me.system_prompt) := by
            intro ms hms
            rcases chatLoop_head O fuel _ _ _ _ _ _ hcl ms hms with hin | hhd
            · exact absurd hin (by simp [openaiCalls])
            · exact hhd
          split at h
          · have hr := (Except.ok.inj (Option.some.inj h)).symm
            subst hr
            dsimp only
            refine ⟨?_, ?_, ?_, ?_⟩
            · simp only [openaiCalls_append, hoe]; rfl
            · intro ms hms
              simp only [openaiCalls_append] at hms
              rcases List.mem_append.mp hms with h1 | h2
              · rcases List.mem_append.mp h1 with h3 | h4
                · exact hmem2 ms h3
                · exact absurd h4 (by simp [openaiCalls])
              · exact absurd h2 (by simp [openaiCalls])
            · intro ms hms
              simp only [parseCalls_append, hpe, List.nil_append] at hms
              have hms2 : ms = [Msg.system me.evaluator_system_prompt,
                  Msg.user (ChatMsgVar.userStr (me.evaluator_user_prompt
                    out.response.message.content out.messageVar history))] := by
                simpa [parseCalls] using hms
              rw [hms2]; rfl
            · intro p hp
              simp only [geminiCalls_append, hge, List.nil_append] at hp
              exact absurd hp (by simp [geminiCalls])
          · have hr := (Except.ok.inj (Option.some.inj h)).symm
            subst hr
            dsimp only
            refine ⟨?_, ?_, ?_, ?_⟩
            · simp only [openaiCalls_append, hoe]; rfl
            · intro ms hms
              simp only [openaiCalls_append] at hms
              rcases List.mem_append.mp hms with h1 | h2
              · rcases List.mem_append.mp h1 with h3 | h4
                · rcases List.mem_append.mp h3 with h5 | h6
                  · exact hmem2 ms h5
                  · exact absurd h6 (by simp [openaiCalls])
                · exact absurd h4 (by simp [openaiCalls])
              · exact absurd h2 (by simp [openaiCalls])
            · intro ms hms
              simp only [parseCalls_append, hpe, List.nil_append] at hms
              have hms2 : ms = [Msg.system me.evaluator_system_prompt,
                  Msg.user (ChatMsgVar.userStr (me.evaluator_user_prompt
                    out.response.message.content out.messageVar history))] := by
                simpa [parseCalls] using hms
              rw [hms2]; rfl
            · intro p hp
              simp only [geminiCalls_append, hge, List.nil_append] at hp
              simp only [geminiCalls, List.filterMap] at hp
              rcases List.mem_singleton.mp hp with hp2
              rw [hp2]
              obtain ⟨ext, hext⟩ := rerunSystemPrompt_extends me out.response.message.content
                ((O.evaluator [Msg.system me.evaluator_system_prompt,
                  Msg.user (ChatMsgVar.userStr (me.evaluator_user_prompt
                    out.response.message.content out.messageVar history))]).feedback)
              exact ⟨ext, history ++ [Msg.user out.messageVar], by rw [hext]; rfl⟩

/-- Plain-answer oracle for the C10 witness. -/
def c10Oracle : Oracles :=
  { primary := fun _ => ⟨"stop", ⟨some "hello", []⟩⟩,
    evaluator := fun _ => ⟨true, "ok"⟩,
    gemini := fun _ => some "re" }

/-- C10 witness: the frame properties at a concrete one-round turn. -/
theorem c10_grounding_immutable_witness :
    ∃ r, (Me.init [] "s").chat c10Oracle 1 "hi" [] = some (Except.ok r) ∧
      ((openaiCalls r.events).head? =
          some (Msg.system (Me.init [] "s").system_prompt :: [] ++
            [Msg.user (ChatMsgVar.userStr "hi")]) ∧
        (∀ ms ∈ openaiCalls r.events,
          ms.head? = some (Msg.system (Me.init [] "s").system_prompt)) ∧
        (∀ ms ∈ parseCalls r.events,
          ms.head? = some (Msg.system (Me.init [] "s").evaluator_system_prompt)) ∧
        (∀ p ∈ geminiCalls r.events, ∃ ext rest,
          p.fst = Msg.system ((Me.init [] "s").system_prompt ++ ext) :: rest)) :=
  ⟨_, rfl, c10_grounding_immutable (Me.init [] "s") c10Oracle 1 "hi" [] _ rfl⟩
